import Mathlib

/-!
Verification development for the kcp multicluster provider example
(cmd/main.go of the 20250401-kubecon-london workshop).  The Go program is
embedded shallowly: pure fragments become Lean functions, the fallible
startup sequence of main becomes a function from an environment of call
outcomes to a trace of observable events plus a final outcome, and the
per-key work queue contract of the controller machinery is modelled as an
explicit transition system.
-/

/-! ## Errors (Go error values, with fmt.Errorf wrapping) -/

/-- A Go error value: either a base error or an error produced by
fmt.Errorf with a prefix message and a wrapped inner error. -/
inductive GoError where
  | base (msg : String)
  | wrapped (prefixMsg : String) (inner : GoError)
deriving DecidableEq, Repr

/-! ## The reconcile closure registered in main (lines 270-287) -/

/-- A resolved logical cluster, as returned by mgr.GetCluster: it hands out
a client (cl.GetClient) and a scheme (cl.GetScheme), identified abstractly. -/
structure Cluster where
  clientId : Nat
  schemeId : Nat
deriving DecidableEq, Repr

/-- An mcreconcile.Request: cluster name plus the object key. -/
structure MCReconcileRequest where
  clusterName : String
  namespaceName : String
  objectName : String
deriving DecidableEq, Repr

/-- A ctrl.Result value. -/
structure CtrlResult where
  requeue : Bool
  requeueAfterNanos : Nat
deriving DecidableEq, Repr

/-- The zero value reconcile.Result that the closure returns on a
GetCluster failure. -/
def emptyResult : CtrlResult :=
  { requeue := false, requeueAfterNanos := 0 }

/-- One invocation of the user-level ApplicationReconciler: the fields of
the controller.ApplicationReconciler struct built by the closure, plus the
object key passed to Reconcile. -/
structure ReconcilerInvocation where
  clientId : Nat
  schemeId : Nat
  providerClientId : Nat
  reqNamespace : String
  reqName : String
deriving DecidableEq, Repr

/-- The external collaborators the closure calls into: the manager's
GetCluster lookup and the user reconciler body (out of scope user logic,
kept abstract as a function of the invocation). -/
structure ReconcileEnv where
  getCluster : String → Except GoError Cluster
  applicationReconcile : ReconcilerInvocation → CtrlResult × Option GoError

/-- The anonymous mcreconcile.Func from main.go lines 270-287: resolve the
cluster by name; on error return the empty result and a wrapped error; on
success build an ApplicationReconciler from the cluster client, the cluster
scheme and the provider cluster dynamic client, and call its Reconcile with
the request object key.  The second component records the list of
user-reconciler invocations performed. -/
def reconcileApplication (env : ReconcileEnv) (providerClientId : Nat)
    (req : MCReconcileRequest) :
    (CtrlResult × Option GoError) × List ReconcilerInvocation :=
  match env.getCluster req.clusterName with
  | Except.error err =>
      ((emptyResult, some (GoError.wrapped "failed to get cluster" err)), [])
  | Except.ok cl =>
      let inv : ReconcilerInvocation :=
        { clientId := cl.clientId, schemeId := cl.schemeId,
          providerClientId := providerClientId,
          reqNamespace := req.namespaceName, reqName := req.objectName }
      (env.applicationReconcile inv, [inv])

/-! ## The startup sequence of main (lines 76-335)

Main is embedded as a trace-producing function: each observable action
(structured info or error log line, and the key external effects) is
recorded in order, and the outcome is either a non-zero process exit or a
normal return from mgr.Start.  The outcomes of the fallible external calls
are abstracted into a MainEnv of booleans; the flag values that influence
control flow are kept in MainFlags. -/

/-- An observable event of the startup sequence: an info log line, a
structured error log line (setupLog.Error), or an external effect. -/
inductive Ev where
  | infoLog (msg : String)
  | errorLog (msg : String)
  | effect (name : String)
deriving DecidableEq, Repr

/-- The outcome of running main: a process exit with a code, or a normal
return after mgr.Start finishes without error. -/
inductive Outcome where
  | exited (code : Nat)
  | normal
deriving DecidableEq, Repr

/-- The command-line flags of main that influence the modelled control
flow. -/
structure MainFlags where
  webhookCertPath : String
  metricsCertPath : String
  enableHTTP2 : Bool
  server : String
  providerKubeConfig : String
deriving DecidableEq, Repr

/-- Outcomes of the fallible external calls that main makes, in program
order; true means the call returns a non-nil error (or fails). -/
structure MainEnv where
  webhookCertWatcherErr : Bool
  metricsCertWatcherErr : Bool
  getConfigErr : Bool
  providerNewErr : Bool
  statKubeconfigErr : Bool
  buildKubeconfigErr : Bool
  clientNewErr : Bool
  managerNewErr : Bool
  builderErr : Bool
  healthzErr : Bool
  readyzErr : Bool
  providerRunErr : Bool
  mgrStartErr : Bool
deriving DecidableEq, Repr

/-- Lines 320-334: start the provider in a goroutine (exiting the process
if provider.Run returns an error) and run mgr.Start, exiting non-zero on
error.  The goroutine is sequentialised: a provider.Run error leads to the
process exit it causes at whatever time it occurs. -/
def runPhase (e : MainEnv) (tr : List Ev) : List Ev × Outcome :=
  if e.providerRunErr then
    (tr ++ [Ev.infoLog "Starting provider", Ev.errorLog "unable to run provider"],
      Outcome.exited 1)
  else if e.mgrStartErr then
    (tr ++ [Ev.infoLog "Starting provider", Ev.infoLog "starting manager",
      Ev.effect "mgr.Start", Ev.errorLog "problem running manager"], Outcome.exited 1)
  else
    (tr ++ [Ev.infoLog "Starting provider", Ev.infoLog "starting manager",
      Ev.effect "mgr.Start"], Outcome.normal)

/-- Lines 311-318: register the healthz check named healthz and the readyz
check named readyz, both backed by healthz.Ping, exiting non-zero if either
registration fails. -/
def healthPhase (e : MainEnv) (tr : List Ev) : List Ev × Outcome :=
  if e.healthzErr then
    (tr ++ [Ev.errorLog "unable to set up health check"], Outcome.exited 1)
  else if e.readyzErr then
    (tr ++ [Ev.effect "AddHealthzCheck healthz ping",
      Ev.errorLog "unable to set up ready check"], Outcome.exited 1)
  else
    runPhase e (tr ++ [Ev.effect "AddHealthzCheck healthz ping",
      Ev.effect "AddReadyzCheck readyz ping"])

/-- Lines 267-291: build the Application controller; exit non-zero if the
builder fails. -/
def builderPhase (e : MainEnv) (tr : List Ev) : List Ev × Outcome :=
  if e.builderErr then
    (tr ++ [Ev.errorLog "unable to create controller"], Outcome.exited 1)
  else
    healthPhase e tr

/-- Lines 243-265: create the multicluster manager; exit non-zero on
error.  The effect event records that mcmanager.New was called. -/
def managerPhase (e : MainEnv) (tr : List Ev) : List Ev × Outcome :=
  if e.managerNewErr then
    (tr ++ [Ev.effect "mcmanager.New",
      Ev.errorLog "unable to set up overall controller manager"], Outcome.exited 1)
  else
    builderPhase e (tr ++ [Ev.effect "mcmanager.New"])

/-- Lines 224-241: construct the External Bridge Client from the
provider kubeconfig: stat the path, build a config from the file, and
build a client over the shared scheme; each failure exits non-zero. -/
def bridgePhase (e : MainEnv) (tr : List Ev) : List Ev × Outcome :=
  if e.statKubeconfigErr then
    (tr ++ [Ev.errorLog "unable to find provider kubeconfig"], Outcome.exited 1)
  else if e.buildKubeconfigErr then
    (tr ++ [Ev.errorLog "unable to build provider kubeconfig"], Outcome.exited 1)
  else if e.clientNewErr then
    (tr ++ [Ev.errorLog "unable to create dynamic client"], Outcome.exited 1)
  else
    managerPhase e (tr ++ [Ev.effect "bridge client constructed"])

/-- Lines 216-222: construct the virtual workspace cluster provider; exit
non-zero on error. -/
def providerPhase (e : MainEnv) (tr : List Ev) : List Ev × Outcome :=
  if e.providerNewErr then
    (tr ++ [Ev.errorLog "unable to construct cluster provider"], Outcome.exited 1)
  else
    bridgePhase e tr

/-- Line 209: ctrl.GetConfigOrDie, which logs an error and exits the
process itself when no config can be loaded. -/
def configPhase (e : MainEnv) (tr : List Ev) : List Ev × Outcome :=
  if e.getConfigErr then
    (tr ++ [Ev.errorLog "unable to get kubeconfig"], Outcome.exited 1)
  else
    providerPhase e tr

/-- Lines 187-204: optional metrics certificate watcher; exit non-zero if
its construction fails. -/
def metricsCertPhase (f : MainFlags) (e : MainEnv) (tr : List Ev) : List Ev × Outcome :=
  if f.metricsCertPath = "" then
    configPhase e tr
  else if e.metricsCertWatcherErr then
    (tr ++ [Ev.infoLog "Initializing metrics certificate watcher using provided certificates",
      Ev.errorLog "to initialize metrics certificate watcher"], Outcome.exited 1)
  else
    configPhase e
      (tr ++ [Ev.infoLog "Initializing metrics certificate watcher using provided certificates"])

/-- Lines 138-155: optional webhook certificate watcher; exit non-zero if
its construction fails. -/
def webhookCertPhase (f : MainFlags) (e : MainEnv) (tr : List Ev) : List Ev × Outcome :=
  if f.webhookCertPath = "" then
    metricsCertPhase f e tr
  else if e.webhookCertWatcherErr then
    (tr ++ [Ev.infoLog "Initializing webhook certificate watcher using provided certificates",
      Ev.errorLog "Failed to initialize webhook certificate watcher"], Outcome.exited 1)
  else
    metricsCertPhase f e
      (tr ++ [Ev.infoLog "Initializing webhook certificate watcher using provided certificates"])

/-- The startup sequence of main: the ordered trace of observable events
and the final outcome, as a function of the flags and of the outcomes of
the external calls. -/
def mainRun (f : MainFlags) (e : MainEnv) : List Ev × Outcome :=
  webhookCertPhase f e []

/-- True when the last event of a trace is a structured error log line. -/
def lastIsErrorLog (tr : List Ev) : Bool :=
  match tr.getLast? with
  | some (Ev.errorLog _) => true
  | _ => false

/-! ## TLS option composition (lines 117-204) -/

/-- The part of a crypto/tls Config that the option functions touch. -/
structure TLSConfig where
  nextProtos : List String
  hasWebhookGetCertificate : Bool
  hasMetricsGetCertificate : Bool

/-- The disableHTTP2 option function of main (lines 123-126): restrict the
negotiable protocols to http/1.1. -/
def disableHTTP2 (c : TLSConfig) : TLSConfig :=
  { c with nextProtos := ["http/1.1"] }

/-- Lines 128-130: tlsOpts holds disableHTTP2 exactly when the
enable-http2 flag is false. -/
def baseTLSOpts (enableHTTP2 : Bool) : List (TLSConfig → TLSConfig) :=
  if enableHTTP2 then [] else [disableHTTP2]

/-- Lines 152-154: the option that installs the webhook certificate
watcher GetCertificate callback. -/
def setWebhookCert (c : TLSConfig) : TLSConfig :=
  { c with hasWebhookGetCertificate := true }

/-- Lines 201-203: the option that installs the metrics certificate
watcher GetCertificate callback. -/
def setMetricsCert (c : TLSConfig) : TLSConfig :=
  { c with hasMetricsGetCertificate := true }

/-- Lines 136-155: the TLS options handed to webhook.NewServer. -/
def webhookTLSOpts (enableHTTP2 : Bool) (webhookCertPath : String) :
    List (TLSConfig → TLSConfig) :=
  baseTLSOpts enableHTTP2 ++ (if webhookCertPath = "" then [] else [setWebhookCert])

/-- Lines 165-204: the TLS options of the metrics server options. -/
def metricsTLSOpts (enableHTTP2 : Bool) (metricsCertPath : String) :
    List (TLSConfig → TLSConfig) :=
  baseTLSOpts enableHTTP2 ++ (if metricsCertPath = "" then [] else [setMetricsCert])

/-- Apply a list of TLS option functions in order, as the servers do when
they build their tls.Config. -/
def applyTLSOpts (opts : List (TLSConfig → TLSConfig)) (c : TLSConfig) : TLSConfig :=
  opts.foldl (fun cfg opt => opt cfg) c

/-! ## Discovery config copy and server override (lines 209-213) -/

/-- The fields of a rest.Config relevant to the override (host) together
with representatives of the fields it must not touch. -/
structure RestConfig where
  host : String
  apiPath : String
  username : String
  bearerToken : String
  tlsServerName : String
deriving DecidableEq, Repr

/-- rest.CopyConfig: build a fresh config carrying over every field. -/
def copyConfig (c : RestConfig) : RestConfig :=
  { host := c.host, apiPath := c.apiPath, username := c.username,
    bearerToken := c.bearerToken, tlsServerName := c.tlsServerName }

/-- Lines 210-213: copy the loaded config, then overwrite Host with the
server flag exactly when that flag is non-empty. -/
def applyServerOverride (orig : RestConfig) (server : String) : RestConfig :=
  if server = "" then copyConfig orig
  else { copyConfig orig with host := server }

/-! ## The shared scheme (init, lines 66-73) -/

/-- The four groups of types that init registers on the shared
clientgoscheme.Scheme. -/
inductive SchemeRegistration where
  | clientgoCore
  | applicationV1alpha1
  | cnpgV1
  | kcpAPIBindingV1alpha1
deriving DecidableEq, Repr

/-- AddToScheme: register a group of types on a scheme, a no-op when the
group is already present. -/
def addToScheme (s : List SchemeRegistration) (r : SchemeRegistration) :
    List SchemeRegistration :=
  if r ∈ s then s else s ++ [r]

/-- The global clientgoscheme.Scheme before the init of main.go runs: the
client-go package has already registered the core types on it. -/
def clientgoBaseScheme : List SchemeRegistration :=
  [SchemeRegistration.clientgoCore]

/-- The shared scheme after init (lines 66-73): init re-adds the client-go
core types and registers the Application v1alpha1, CloudNativePG v1 and
kcp APIBinding v1alpha1 types. -/
def schemeAfterInit : List SchemeRegistration :=
  addToScheme
    (addToScheme
      (addToScheme
        (addToScheme clientgoBaseScheme SchemeRegistration.clientgoCore)
        SchemeRegistration.applicationV1alpha1)
      SchemeRegistration.cnpgV1)
    SchemeRegistration.kcpAPIBindingV1alpha1

/-- The scheme passed to virtualworkspace.New (line 217): the shared
global scheme. -/
def providerScheme : List SchemeRegistration := schemeAfterInit

/-- The scheme passed to client.New for the External Bridge Client
(line 236): the shared global scheme. -/
def bridgeClientScheme : List SchemeRegistration := schemeAfterInit

/-- The scheme passed to mcmanager.New (line 244): the shared global
scheme. -/
def managerScheme : List SchemeRegistration := schemeAfterInit

/-! ## The per-key coalescing work queue

Modelled from the spec: the dispatch machinery that serialises reconciles
per key is the controller-runtime work queue and worker pool used by
mcbuilder.ControllerManagedBy (a dependency, not present under src/).
Following the spec,  enqueuing a key that is already pending or in flight
coalesces into at most one pending re-run, and a worker starts a key only
when no reconcile for that key is in flight.  Keys are triples of cluster
id, namespace and name. -/

/-- A work item key: cluster id, namespace and name. -/
structure WorkKey where
  clusterId : String
  keyNamespace : String
  keyName : String
deriving DecidableEq, Repr

/-- The dispatcher state: for each key, how many queued pending runs and
how many in-flight reconciles exist.  Counts (rather than flags) make
over-admission representable, so that the bounds below are facts to prove,
not artifacts of the state type. -/
structure QState where
  pending : WorkKey → Nat
  running : WorkKey → Nat

/-- A dispatcher event: a change notification arrives for a key, a worker
starts the pending run of a key, or an in-flight reconcile finishes. -/
inductive QEvent where
  | enqueue (k : WorkKey)
  | start (k : WorkKey)
  | finish (k : WorkKey)

/-- The initial dispatcher state: nothing pending, nothing running. -/
def qInit : QState :=
  { pending := fun _ => 0, running := fun _ => 0 }

/-- One dispatcher step.  Enqueue coalesces: a key already pending stays a
single pending run.  Start requires a pending run and no in-flight
reconcile for that key; finish retires one in-flight reconcile.  Guarded
events whose guard fails cannot occur and leave the state unchanged. -/
def qStep (s : QState) (ev : QEvent) : QState :=
  match ev with
  | QEvent.enqueue k =>
      if s.pending k = 0 then
        { s with pending := fun j => if j = k then 1 else s.pending j }
      else s
  | QEvent.start k =>
      if 0 < s.pending k ∧ s.running k = 0 then
        { pending := fun j => if j = k then s.pending j - 1 else s.pending j,
          running := fun j => if j = k then s.running j + 1 else s.running j }
      else s
  | QEvent.finish k =>
      if 0 < s.running k then
        { s with running := fun j => if j = k then s.running j - 1 else s.running j }
      else s

/-- The dispatcher state after a sequence of events, from the initial
state. -/
def qRun (evs : List QEvent) : QState :=
  evs.foldl qStep qInit

/-! ## Sample inputs shared by the witnesses -/

/-- A sample flag assignment: defaults plus a provider kubeconfig path. -/
def sampleFlags : MainFlags :=
  { webhookCertPath := "", metricsCertPath := "", enableHTTP2 := false,
    server := "", providerKubeConfig := "/kcp/admin.kubeconfig" }

/-- A run environment in which every external call succeeds. -/
def okEnv : MainEnv :=
  { webhookCertWatcherErr := false, metricsCertWatcherErr := false,
    getConfigErr := false, providerNewErr := false, statKubeconfigErr := false,
    buildKubeconfigErr := false, clientNewErr := false, managerNewErr := false,
    builderErr := false, healthzErr := false, readyzErr := false,
    providerRunErr := false, mgrStartErr := false }

/-- A reconcile environment whose GetCluster always fails. -/
def failingGetClusterEnv : ReconcileEnv :=
  { getCluster := fun _ => Except.error (GoError.base "cluster not found"),
    applicationReconcile := fun _ => (emptyResult, none) }

/-- A reconcile environment whose GetCluster always resolves to a fixed
cluster and whose user reconciler returns a fixed result. -/
def resolvingEnv : ReconcileEnv :=
  { getCluster := fun _ => Except.ok { clientId := 3, schemeId := 5 },
    applicationReconcile := fun _ =>
      ({ requeue := false, requeueAfterNanos := 30000000000 }, none) }

/-- The event recording registration of the healthz check named healthz,
backed by healthz.Ping. -/
def healthzEv : Ev := Ev.effect "AddHealthzCheck healthz ping"

/-- The event recording registration of the readyz check named readyz,
backed by healthz.Ping. -/
def readyzEv : Ev := Ev.effect "AddReadyzCheck readyz ping"

/-- The event recording the call to mgr.Start. -/
def startEv : Ev := Ev.effect "mgr.Start"

/-- A trace fragment containing no external effect events, only log
lines. -/
def noEffect (d : List Ev) : Prop :=
  ∀ s, Ev.effect s ∉ d

/-- Both health-check registrations happen strictly before the first
mgr.Start event of the result trace: whenever mgr.Start occurs, the trace
splits into a prefix holding both registrations and no mgr.Start, followed
by the part holding mgr.Start. -/
def regsBeforeStart (r : List Ev × Outcome) : Prop :=
  startEv ∈ r.1 →
    ∃ tr₁ tr₂, r.1 = tr₁ ++ tr₂ ∧ healthzEv ∈ tr₁ ∧ readyzEv ∈ tr₁ ∧
      startEv ∉ tr₁ ∧ startEv ∈ tr₂

/-! ## Claims -/

/-- C1: if the manager's GetCluster call fails for a reconcile request,
the reconcile function returns the empty result together with a non-nil
error wrapping the GetCluster error, and the user-level
ApplicationReconciler is never invoked for that request. -/
theorem c1_getCluster_error_wraps_and_skips_reconciler
    (env : ReconcileEnv) (pc : Nat) (req : MCReconcileRequest) (err : GoError)
    (h : env.getCluster req.clusterName = Except.error err) :
    reconcileApplication env pc req =
      ((emptyResult, some (GoError.wrapped "failed to get cluster" err)), []) := by
  unfold reconcileApplication
  rw [h]

/-- Witness for C1 at a concrete failing request. -/
theorem c1_getCluster_error_wraps_and_skips_reconciler_witness :
    reconcileApplication failingGetClusterEnv 7
      { clusterName := "root", namespaceName := "default", objectName := "app" } =
      ((emptyResult,
        some (GoError.wrapped "failed to get cluster" (GoError.base "cluster not found"))), []) :=
  c1_getCluster_error_wraps_and_skips_reconciler failingGetClusterEnv 7
    { clusterName := "root", namespaceName := "default", objectName := "app" }
    (GoError.base "cluster not found") rfl

/-- C2: if GetCluster resolves the request's cluster, the registered
reconciler is invoked exactly once, with the cluster's client and scheme,
the request's object key, and the provider cluster dynamic client, and its
result and error are returned unchanged. -/
theorem c2_resolved_cluster_invokes_reconciler_once
    (env : ReconcileEnv) (pc : Nat) (req : MCReconcileRequest) (cl : Cluster)
    (h : env.getCluster req.clusterName = Except.ok cl) :
    reconcileApplication env pc req =
      (env.applicationReconcile
        { clientId := cl.clientId, schemeId := cl.schemeId,
          providerClientId := pc,
          reqNamespace := req.namespaceName, reqName := req.objectName },
       [{ clientId := cl.clientId, schemeId := cl.schemeId,
          providerClientId := pc,
          reqNamespace := req.namespaceName, reqName := req.objectName }]) := by
  unfold reconcileApplication
  rw [h]

/-- Witness for C2 at a concrete resolvable request. -/
theorem c2_resolved_cluster_invokes_reconciler_once_witness :
    reconcileApplication resolvingEnv 7
      { clusterName := "root", namespaceName := "default", objectName := "app" } =
      (resolvingEnv.applicationReconcile
        { clientId := 3, schemeId := 5, providerClientId := 7,
          reqNamespace := "default", reqName := "app" },
       [{ clientId := 3, schemeId := 5, providerClientId := 7,
          reqNamespace := "default", reqName := "app" }]) :=
  c2_resolved_cluster_invokes_reconciler_once resolvingEnv 7
    { clusterName := "root", namespaceName := "default", objectName := "app" }
    { clientId := 3, schemeId := 5 } rfl

/-- C8: when the enable-http2 flag is false, applying the TLS option list
of the webhook server and of the metrics server leaves NextProtos equal to
exactly http/1.1, whatever the certificate flags and the initial config. -/
theorem c8_http2_disabled_by_default
    (enableHTTP2 : Bool) (webhookCertPath metricsCertPath : String) (c : TLSConfig)
    (h : enableHTTP2 = false) :
    (applyTLSOpts (webhookTLSOpts enableHTTP2 webhookCertPath) c).nextProtos =
      ["http/1.1"] ∧
    (applyTLSOpts (metricsTLSOpts enableHTTP2 metricsCertPath) c).nextProtos =
      ["http/1.1"] := by
  subst h
  constructor <;>
  · simp only [webhookTLSOpts, metricsTLSOpts, baseTLSOpts, applyTLSOpts]
    split <;> split <;>
      simp_all [disableHTTP2, setWebhookCert, setMetricsCert]

/-- Witness for C8 at a concrete config that starts with h2 negotiable. -/
theorem c8_http2_disabled_by_default_witness :
    (applyTLSOpts (webhookTLSOpts false "")
      { nextProtos := ["h2", "http/1.1"], hasWebhookGetCertificate := false,
        hasMetricsGetCertificate := false }).nextProtos = ["http/1.1"] ∧
    (applyTLSOpts (metricsTLSOpts false "/etc/certs")
      { nextProtos := ["h2", "http/1.1"], hasWebhookGetCertificate := false,
        hasMetricsGetCertificate := false }).nextProtos = ["http/1.1"] :=
  c8_http2_disabled_by_default false "" "/etc/certs"
    { nextProtos := ["h2", "http/1.1"], hasWebhookGetCertificate := false,
      hasMetricsGetCertificate := false } rfl

/-- C9: the discovery config is copied before mutation; the copy's Host is
overwritten with the server flag exactly when that flag is non-empty, every
other field of the copy equals the loaded config's field, and the copy
itself carries over every field unchanged. -/
theorem c9_server_override_only_touches_host
    (orig : RestConfig) (server : String) :
    ((server = "" → (applyServerOverride orig server).host = orig.host) ∧
     (server ≠ "" → (applyServerOverride orig server).host = server)) ∧
    (applyServerOverride orig server).apiPath = orig.apiPath ∧
    (applyServerOverride orig server).username = orig.username ∧
    (applyServerOverride orig server).bearerToken = orig.bearerToken ∧
    (applyServerOverride orig server).tlsServerName = orig.tlsServerName ∧
    copyConfig orig = orig := by
  unfold applyServerOverride copyConfig
  split <;> simp_all

/-- Witness for C9 at a concrete config, once with an empty and once with
a non-empty server flag. -/
theorem c9_server_override_only_touches_host_witness :
    (applyServerOverride
      { host := "https://orig", apiPath := "/api", username := "u",
        bearerToken := "t", tlsServerName := "sn" } "").host = "https://orig" ∧
    (applyServerOverride
      { host := "https://orig", apiPath := "/api", username := "u",
        bearerToken := "t", tlsServerName := "sn" } "https://front-proxy").host =
      "https://front-proxy" :=
  ⟨(c9_server_override_only_touches_host
      { host := "https://orig", apiPath := "/api", username := "u",
        bearerToken := "t", tlsServerName := "sn" } "").1.1 rfl,
   (c9_server_override_only_touches_host
      { host := "https://orig", apiPath := "/api", username := "u",
        bearerToken := "t", tlsServerName := "sn" } "https://front-proxy").1.2
     (by decide)⟩

/-- C10: the provider, the External Bridge Client and the multicluster
manager are all built over the one shared scheme, and that scheme contains
the client-go core types, the Application v1alpha1 types, the
CloudNativePG v1 types and the kcp APIBinding v1alpha1 types. -/
theorem c10_single_shared_scheme :
    providerScheme = managerScheme ∧ bridgeClientScheme = managerScheme ∧
    SchemeRegistration.clientgoCore ∈ schemeAfterInit ∧
    SchemeRegistration.applicationV1alpha1 ∈ schemeAfterInit ∧
    SchemeRegistration.cnpgV1 ∈ schemeAfterInit ∧
    SchemeRegistration.kcpAPIBindingV1alpha1 ∈ schemeAfterInit := by
  decide

/-! ## Per-phase exit lemmas for the startup sequence -/

/-- If provider.Run fails, the run phase exits with code one. -/
theorem runPhase_exit_of_runErr (e : MainEnv) (h : e.providerRunErr = true)
    (tr : List Ev) : (runPhase e tr).2 = Outcome.exited 1 := by
  simp [runPhase, h]

/-- If the healthz registration fails, the health phase exits with code
one. -/
theorem healthPhase_exit_of_healthzErr (e : MainEnv) (h : e.healthzErr = true)
    (tr : List Ev) : (healthPhase e tr).2 = Outcome.exited 1 := by
  simp [healthPhase, h]

/-- If the readyz registration fails, the health phase exits with code
one. -/
theorem healthPhase_exit_of_readyzErr (e : MainEnv) (h : e.readyzErr = true)
    (tr : List Ev) : (healthPhase e tr).2 = Outcome.exited 1 := by
  by_cases h1 : e.healthzErr = true <;> simp [healthPhase, h1, h]

/-- If provider construction fails, the provider phase exits with code
one. -/
theorem providerPhase_exit_of_newErr (e : MainEnv) (h : e.providerNewErr = true)
    (tr : List Ev) : (providerPhase e tr).2 = Outcome.exited 1 := by
  simp [providerPhase, h]

/-- If the tail starting at the run phase always exits with code one, so
does the health phase. -/
theorem healthPhase_exit_delegate (e : MainEnv)
    (H : ∀ tr, (runPhase e tr).2 = Outcome.exited 1) (tr : List Ev) :
    (healthPhase e tr).2 = Outcome.exited 1 := by
  by_cases h1 : e.healthzErr = true <;> by_cases h2 : e.readyzErr = true <;>
    simp [healthPhase, h1, h2, H]

/-- If the tail starting at the health phase always exits with code one,
so does the builder phase. -/
theorem builderPhase_exit_delegate (e : MainEnv)
    (H : ∀ tr, (healthPhase e tr).2 = Outcome.exited 1) (tr : List Ev) :
    (builderPhase e tr).2 = Outcome.exited 1 := by
  by_cases h1 : e.builderErr = true <;> simp [builderPhase, h1, H]

/-- If the tail starting at the builder phase always exits with code one,
so does the manager phase. -/
theorem managerPhase_exit_delegate (e : MainEnv)
    (H : ∀ tr, (builderPhase e tr).2 = Outcome.exited 1) (tr : List Ev) :
    (managerPhase e tr).2 = Outcome.exited 1 := by
  by_cases h1 : e.managerNewErr = true <;> simp [managerPhase, h1, H]

/-- If the tail starting at the manager phase always exits with code one,
so does the bridge phase. -/
theorem bridgePhase_exit_delegate (e : MainEnv)
    (H : ∀ tr, (managerPhase e tr).2 = Outcome.exited 1) (tr : List Ev) :
    (bridgePhase e tr).2 = Outcome.exited 1 := by
  by_cases h1 : e.statKubeconfigErr = true <;>
    by_cases h2 : e.buildKubeconfigErr = true <;>
      by_cases h3 : e.clientNewErr = true <;>
        simp [bridgePhase, h1, h2, h3, H]

/-- If the tail starting at the bridge phase always exits with code one,
so does the provider phase. -/
theorem providerPhase_exit_delegate (e : MainEnv)
    (H : ∀ tr, (bridgePhase e tr).2 = Outcome.exited 1) (tr : List Ev) :
    (providerPhase e tr).2 = Outcome.exited 1 := by
  by_cases h1 : e.providerNewErr = true <;> simp [providerPhase, h1, H]

/-- If the tail starting at the provider phase always exits with code one,
so does the config phase. -/
theorem configPhase_exit_delegate (e : MainEnv)
    (H : ∀ tr, (providerPhase e tr).2 = Outcome.exited 1) (tr : List Ev) :
    (configPhase e tr).2 = Outcome.exited 1 := by
  by_cases h1 : e.getConfigErr = true <;> simp [configPhase, h1, H]

/-- If the tail starting at the config phase always exits with code one,
so does the metrics certificate phase. -/
theorem metricsCertPhase_exit_delegate (f : MainFlags) (e : MainEnv)
    (H : ∀ tr, (configPhase e tr).2 = Outcome.exited 1) (tr : List Ev) :
    (metricsCertPhase f e tr).2 = Outcome.exited 1 := by
  by_cases h1 : f.metricsCertPath = "" <;>
    by_cases h2 : e.metricsCertWatcherErr = true <;>
      simp [metricsCertPhase, h1, h2, H]

/-- If the tail starting at the metrics certificate phase always exits
with code one, so does the webhook certificate phase. -/
theorem webhookCertPhase_exit_delegate (f : MainFlags) (e : MainEnv)
    (H : ∀ tr, (metricsCertPhase f e tr).2 = Outcome.exited 1) (tr : List Ev) :
    (webhookCertPhase f e tr).2 = Outcome.exited 1 := by
  by_cases h1 : f.webhookCertPath = "" <;>
    by_cases h2 : e.webhookCertWatcherErr = true <;>
      simp [webhookCertPhase, h1, h2, H]

/-- C4: provider.Run is modelled as the dependency contract describes it
(an abstract blocking call whose only output is an optional unrecoverable
error); in this program, if constructing the provider fails, or if
provider.Run returns a non-nil error at any time, the process terminates
with a non-zero exit code. -/
theorem c4_provider_failure_terminates_process
    (f : MainFlags) (e : MainEnv)
    (h : e.providerNewErr = true ∨ e.providerRunErr = true) :
    (mainRun f e).2 = Outcome.exited 1 := by
  unfold mainRun
  rcases h with h | h
  · exact webhookCertPhase_exit_delegate f e
      (fun t1 => metricsCertPhase_exit_delegate f e
        (fun t2 => configPhase_exit_delegate e
          (fun t3 => providerPhase_exit_of_newErr e h t3) t2) t1) []
  · exact webhookCertPhase_exit_delegate f e
      (fun t1 => metricsCertPhase_exit_delegate f e
        (fun t2 => configPhase_exit_delegate e
          (fun t3 => providerPhase_exit_delegate e
            (fun t4 => bridgePhase_exit_delegate e
              (fun t5 => managerPhase_exit_delegate e
                (fun t6 => builderPhase_exit_delegate e
                  (fun t7 => healthPhase_exit_delegate e
                    (fun t8 => runPhase_exit_of_runErr e h t8) t7) t6) t5) t4) t3) t2) t1) []

/-- Witness for C4: provider.Run returns an error while everything else
succeeds. -/
theorem c4_provider_failure_terminates_process_witness :
    (mainRun sampleFlags { okEnv with providerRunErr := true }).2 =
      Outcome.exited 1 :=
  c4_provider_failure_terminates_process sampleFlags
    { okEnv with providerRunErr := true } (Or.inr rfl)

/-! ## Per-phase effect-free failure lemmas (for C3) -/

/-- If constructing the External Bridge Client fails at any of its three
steps, the bridge phase exits with code one having appended only an error
log line. -/
theorem bridgePhase_noEffect_of_bridgeErr (e : MainEnv)
    (h : e.statKubeconfigErr = true ∨ e.buildKubeconfigErr = true ∨
      e.clientNewErr = true) (tr : List Ev) :
    ∃ d, bridgePhase e tr = (tr ++ d, Outcome.exited 1) ∧ noEffect d := by
  by_cases h1 : e.statKubeconfigErr = true
  · refine ⟨[Ev.errorLog "unable to find provider kubeconfig"],
      by simp [bridgePhase, h1], fun s => by simp⟩
  · by_cases h2 : e.buildKubeconfigErr = true
    · refine ⟨[Ev.errorLog "unable to build provider kubeconfig"],
        by simp [bridgePhase, h1, h2], fun s => by simp⟩
    · by_cases h3 : e.clientNewErr = true
      · refine ⟨[Ev.errorLog "unable to create dynamic client"],
          by simp [bridgePhase, h1, h2, h3], fun s => by simp⟩
      · rcases h with h | h | h <;> simp_all

/-- An effect-free exit of the bridge phase lifts through the provider
phase. -/
theorem providerPhase_noEffect_delegate (e : MainEnv)
    (H : ∀ tr, ∃ d, bridgePhase e tr = (tr ++ d, Outcome.exited 1) ∧ noEffect d)
    (tr : List Ev) :
    ∃ d, providerPhase e tr = (tr ++ d, Outcome.exited 1) ∧ noEffect d := by
  by_cases h1 : e.providerNewErr = true
  · refine ⟨[Ev.errorLog "unable to construct cluster provider"],
      by simp [providerPhase, h1], fun s => by simp⟩
  · simpa [providerPhase, h1] using H tr

/-- An effect-free exit of the provider phase lifts through the config
phase. -/
theorem configPhase_noEffect_delegate (e : MainEnv)
    (H : ∀ tr, ∃ d, providerPhase e tr = (tr ++ d, Outcome.exited 1) ∧ noEffect d)
    (tr : List Ev) :
    ∃ d, configPhase e tr = (tr ++ d, Outcome.exited 1) ∧ noEffect d := by
  by_cases h1 : e.getConfigErr = true
  · refine ⟨[Ev.errorLog "unable to get kubeconfig"],
      by simp [configPhase, h1], fun s => by simp⟩
  · simpa [configPhase, h1] using H tr

/-- An effect-free exit of the config phase lifts through the metrics
certificate phase. -/
theorem metricsCertPhase_noEffect_delegate (f : MainFlags) (e : MainEnv)
    (H : ∀ tr, ∃ d, configPhase e tr = (tr ++ d, Outcome.exited 1) ∧ noEffect d)
    (tr : List Ev) :
    ∃ d, metricsCertPhase f e tr = (tr ++ d, Outcome.exited 1) ∧ noEffect d := by
  by_cases h1 : f.metricsCertPath = ""
  · simpa [metricsCertPhase, h1] using H tr
  · by_cases h2 : e.metricsCertWatcherErr = true
    · refine ⟨[Ev.infoLog "Initializing metrics certificate watcher using provided certificates",
        Ev.errorLog "to initialize metrics certificate watcher"],
        by simp [metricsCertPhase, h1, h2], fun s => by simp⟩
    · obtain ⟨d, hd, hnd⟩ := H (tr ++
        [Ev.infoLog "Initializing metrics certificate watcher using provided certificates"])
      refine ⟨[Ev.infoLog "Initializing metrics certificate watcher using provided certificates"] ++ d,
        ?_, ?_⟩
      · rw [← List.append_assoc]
        simpa [metricsCertPhase, h1, h2] using hd
      · intro s
        simpa using hnd s

/-- An effect-free exit of the metrics certificate phase lifts through
the webhook certificate phase. -/
theorem webhookCertPhase_noEffect_delegate (f : MainFlags) (e : MainEnv)
    (H : ∀ tr, ∃ d, metricsCertPhase f e tr = (tr ++ d, Outcome.exited 1) ∧ noEffect d)
    (tr : List Ev) :
    ∃ d, webhookCertPhase f e tr = (tr ++ d, Outcome.exited 1) ∧ noEffect d := by
  by_cases h1 : f.webhookCertPath = ""
  · simpa [webhookCertPhase, h1] using H tr
  · by_cases h2 : e.webhookCertWatcherErr = true
    · refine ⟨[Ev.infoLog "Initializing webhook certificate watcher using provided certificates",
        Ev.errorLog "Failed to initialize webhook certificate watcher"],
        by simp [webhookCertPhase, h1, h2], fun s => by simp⟩
    · obtain ⟨d, hd, hnd⟩ := H (tr ++
        [Ev.infoLog "Initializing webhook certificate watcher using provided certificates"])
      refine ⟨[Ev.infoLog "Initializing webhook certificate watcher using provided certificates"] ++ d,
        ?_, ?_⟩
      · rw [← List.append_assoc]
        simpa [webhookCertPhase, h1, h2] using hd
      · intro s
        simpa using hnd s

/-- C3: if any step of constructing the External Bridge Client fails (the
stat of the provider kubeconfig path, building the config from the file,
or building the client), main exits non-zero before the multicluster
manager is created and before mgr.Start could start any reconciliation
work. -/
theorem c3_bridge_client_failure_is_fatal_before_manager
    (f : MainFlags) (e : MainEnv)
    (h : e.statKubeconfigErr = true ∨ e.buildKubeconfigErr = true ∨
      e.clientNewErr = true) :
    (mainRun f e).2 = Outcome.exited 1 ∧
    Ev.effect "mcmanager.New" ∉ (mainRun f e).1 ∧
    Ev.effect "mgr.Start" ∉ (mainRun f e).1 := by
  obtain ⟨d, hd, hnd⟩ := webhookCertPhase_noEffect_delegate f e
    (fun t1 => metricsCertPhase_noEffect_delegate f e
      (fun t2 => configPhase_noEffect_delegate e
        (fun t3 => providerPhase_noEffect_delegate e
          (fun t4 => bridgePhase_noEffect_of_bridgeErr e h t4) t3) t2) t1) []
  unfold mainRun
  rw [hd]
  refine ⟨rfl, ?_, ?_⟩
  · simpa using hnd "mcmanager.New"
  · simpa using hnd "mgr.Start"

/-- Witness for C3: the provider kubeconfig path does not exist. -/
theorem c3_bridge_client_failure_is_fatal_before_manager_witness :
    (mainRun sampleFlags { okEnv with statKubeconfigErr := true }).2 =
      Outcome.exited 1 ∧
    Ev.effect "mcmanager.New" ∉
      (mainRun sampleFlags { okEnv with statKubeconfigErr := true }).1 ∧
    Ev.effect "mgr.Start" ∉
      (mainRun sampleFlags { okEnv with statKubeconfigErr := true }).1 :=
  c3_bridge_client_failure_is_fatal_before_manager sampleFlags
    { okEnv with statKubeconfigErr := true } (Or.inl rfl)

/-! ## Per-phase last-event lemmas (for C7) -/

/-- Appending on the left preserves the last event. -/
theorem lastIsErrorLog_append (tr l : List Ev) (h : lastIsErrorLog l = true) :
    lastIsErrorLog (tr ++ l) = true := by
  unfold lastIsErrorLog at h ⊢
  rw [List.getLast?_append]
  cases hl : l.getLast? with
  | none => rw [hl] at h; simp at h
  | some x => rw [hl] at h; simp [Option.or, hl, h]

/-- Every exit of the run phase has code one and an error log line as the
last trace event. -/
theorem runPhase_last_error (e : MainEnv) (tr : List Ev) (c : Nat)
    (h : (runPhase e tr).2 = Outcome.exited c) :
    c = 1 ∧ lastIsErrorLog (runPhase e tr).1 = true := by
  unfold runPhase at h ⊢
  by_cases h1 : e.providerRunErr = true <;> by_cases h2 : e.mgrStartErr = true <;>
    simp_all <;> exact lastIsErrorLog_append _ _ rfl

/-- Every exit of the health phase has code one and an error log line as
the last trace event. -/
theorem healthPhase_last_error (e : MainEnv) (tr : List Ev) (c : Nat)
    (h : (healthPhase e tr).2 = Outcome.exited c) :
    c = 1 ∧ lastIsErrorLog (healthPhase e tr).1 = true := by
  unfold healthPhase at h ⊢
  by_cases h1 : e.healthzErr = true <;> by_cases h2 : e.readyzErr = true <;>
    simp_all
  · exact lastIsErrorLog_append _ _ rfl
  · exact lastIsErrorLog_append _ _ rfl
  · exact lastIsErrorLog_append _ _ rfl
  · exact runPhase_last_error e _ c h

/-- Every exit of the builder phase has code one and an error log line as
the last trace event. -/
theorem builderPhase_last_error (e : MainEnv) (tr : List Ev) (c : Nat)
    (h : (builderPhase e tr).2 = Outcome.exited c) :
    c = 1 ∧ lastIsErrorLog (builderPhase e tr).1 = true := by
  unfold builderPhase at h ⊢
  by_cases h1 : e.builderErr = true <;> simp_all
  · exact lastIsErrorLog_append _ _ rfl
  · exact healthPhase_last_error e _ c h

/-- Every exit of the manager phase has code one and an error log line as
the last trace event. -/
theorem managerPhase_last_error (e : MainEnv) (tr : List Ev) (c : Nat)
    (h : (managerPhase e tr).2 = Outcome.exited c) :
    c = 1 ∧ lastIsErrorLog (managerPhase e tr).1 = true := by
  unfold managerPhase at h ⊢
  by_cases h1 : e.managerNewErr = true <;> simp_all
  · exact lastIsErrorLog_append _ _ rfl
  · exact builderPhase_last_error e _ c h

/-- Every exit of the bridge phase has code one and an error log line as
the last trace event. -/
theorem bridgePhase_last_error (e : MainEnv) (tr : List Ev) (c : Nat)
    (h : (bridgePhase e tr).2 = Outcome.exited c) :
    c = 1 ∧ lastIsErrorLog (bridgePhase e tr).1 = true := by
  unfold bridgePhase at h ⊢
  by_cases h1 : e.statKubeconfigErr = true <;>
    by_cases h2 : e.buildKubeconfigErr = true <;>
      by_cases h3 : e.clientNewErr = true <;> simp_all
  all_goals first
    | exact lastIsErrorLog_append _ _ rfl
    | exact managerPhase_last_error e _ c h

/-- Every exit of the provider phase has code one and an error log line
as the last trace event. -/
theorem providerPhase_last_error (e : MainEnv) (tr : List Ev) (c : Nat)
    (h : (providerPhase e tr).2 = Outcome.exited c) :
    c = 1 ∧ lastIsErrorLog (providerPhase e tr).1 = true := by
  unfold providerPhase at h ⊢
  by_cases h1 : e.providerNewErr = true <;> simp_all
  · exact lastIsErrorLog_append _ _ rfl
  · exact bridgePhase_last_error e _ c h

/-- Every exit of the config phase has code one and an error log line as
the last trace event. -/
theorem configPhase_last_error (e : MainEnv) (tr : List Ev) (c : Nat)
    (h : (configPhase e tr).2 = Outcome.exited c) :
    c = 1 ∧ lastIsErrorLog (configPhase e tr).1 = true := by
  unfold configPhase at h ⊢
  by_cases h1 : e.getConfigErr = true <;> simp_all
  · exact lastIsErrorLog_append _ _ rfl
  · exact providerPhase_last_error e _ c h

/-- Every exit of the metrics certificate phase has code one and an error
log line as the last trace event. -/
theorem metricsCertPhase_last_error (f : MainFlags) (e : MainEnv) (tr : List Ev)
    (c : Nat) (h : (metricsCertPhase f e tr).2 = Outcome.exited c) :
    c = 1 ∧ lastIsErrorLog (metricsCertPhase f e tr).1 = true := by
  unfold metricsCertPhase at h ⊢
  by_cases h1 : f.metricsCertPath = "" <;>
    by_cases h2 : e.metricsCertWatcherErr = true <;> simp_all
  all_goals first
    | exact lastIsErrorLog_append _ _ rfl
    | exact configPhase_last_error e _ c h

/-- Every exit of the webhook certificate phase has code one and an error
log line as the last trace event. -/
theorem webhookCertPhase_last_error (f : MainFlags) (e : MainEnv) (tr : List Ev)
    (c : Nat) (h : (webhookCertPhase f e tr).2 = Outcome.exited c) :
    c = 1 ∧ lastIsErrorLog (webhookCertPhase f e tr).1 = true := by
  unfold webhookCertPhase at h ⊢
  by_cases h1 : f.webhookCertPath = "" <;>
    by_cases h2 : e.webhookCertWatcherErr = true <;> simp_all
  all_goals first
    | exact lastIsErrorLog_append _ _ rfl
    | exact metricsCertPhase_last_error f e _ c h

/-- C7: every run of main that terminates the process with an exit code
exits with the non-zero code one and its trace ends with a structured
error log line, so no fatal path exits silently. -/
theorem c7_fatal_paths_log_before_exit
    (f : MainFlags) (e : MainEnv) (c : Nat)
    (h : (mainRun f e).2 = Outcome.exited c) :
    c = 1 ∧ lastIsErrorLog (mainRun f e).1 = true := by
  unfold mainRun at h ⊢
  exact webhookCertPhase_last_error f e [] c h

/-- Witness for C7: mgr.Start fails and the trace ends with the problem
running manager error line. -/
theorem c7_fatal_paths_log_before_exit_witness :
    (1 : Nat) = 1 ∧
    lastIsErrorLog (mainRun sampleFlags { okEnv with mgrStartErr := true }).1 =
      true :=
  c7_fatal_paths_log_before_exit sampleFlags { okEnv with mgrStartErr := true } 1
    (by decide)

/-! ## Per-phase ordering lemmas (for C6) -/

/-- A result whose trace has no mgr.Start event vacuously places the
registrations before it. -/
theorem regsBeforeStart_of_not_mem (r : List Ev × Outcome)
    (h : startEv ∉ r.1) : regsBeforeStart r :=
  fun hmem => absurd hmem h

/-- The run phase keeps both registrations strictly before the mgr.Start
event it may append. -/
theorem runPhase_before (e : MainEnv) (tr : List Ev) (hs : startEv ∉ tr)
    (hh : healthzEv ∈ tr) (hr : readyzEv ∈ tr) :
    regsBeforeStart (runPhase e tr) := by
  by_cases h1 : e.providerRunErr = true
  · apply regsBeforeStart_of_not_mem
    simp [runPhase, h1, startEv] at hs ⊢
    exact hs
  · by_cases h2 : e.mgrStartErr = true
    · intro hmem
      refine ⟨tr ++ [Ev.infoLog "Starting provider", Ev.infoLog "starting manager"],
        [Ev.effect "mgr.Start", Ev.errorLog "problem running manager"],
        ?_, ?_, ?_, ?_, ?_⟩
      · simp [runPhase, h1, h2, List.append_assoc]
      · simp [hh]
      · simp [hr]
      · simp [startEv] at hs ⊢
        exact hs
      · simp [startEv]
    · intro hmem
      refine ⟨tr ++ [Ev.infoLog "Starting provider", Ev.infoLog "starting manager"],
        [Ev.effect "mgr.Start"], ?_, ?_, ?_, ?_, ?_⟩
      · simp [runPhase, h1, h2, List.append_assoc]
      · simp [hh]
      · simp [hr]
      · simp [startEv] at hs ⊢
        exact hs
      · simp [startEv]

/-- The health phase registers healthz and readyz before delegating to
the run phase, so the registrations precede any mgr.Start event. -/
theorem healthPhase_before (e : MainEnv) (tr : List Ev) (hs : startEv ∉ tr) :
    regsBeforeStart (healthPhase e tr) := by
  by_cases h1 : e.healthzErr = true
  · apply regsBeforeStart_of_not_mem
    simp [healthPhase, h1, startEv] at hs ⊢
    exact hs
  · by_cases h2 : e.readyzErr = true
    · apply regsBeforeStart_of_not_mem
      simp [healthPhase, h1, h2, startEv] at hs ⊢
      exact hs
    · have hrun := runPhase_before e
        (tr ++ [Ev.effect "AddHealthzCheck healthz ping",
          Ev.effect "AddReadyzCheck readyz ping"])
        (by simp [startEv] at hs ⊢; exact hs)
        (by simp [healthzEv]) (by simp [readyzEv])
      simpa [healthPhase, h1, h2] using hrun

/-- The builder phase preserves the ordering property. -/
theorem builderPhase_before (e : MainEnv) (tr : List Ev) (hs : startEv ∉ tr) :
    regsBeforeStart (builderPhase e tr) := by
  by_cases h1 : e.builderErr = true
  · apply regsBeforeStart_of_not_mem
    simp [builderPhase, h1, startEv] at hs ⊢
    exact hs
  · simpa [builderPhase, h1] using healthPhase_before e tr hs

/-- The manager phase preserves the ordering property. -/
theorem managerPhase_before (e : MainEnv) (tr : List Ev) (hs : startEv ∉ tr) :
    regsBeforeStart (managerPhase e tr) := by
  by_cases h1 : e.managerNewErr = true
  · apply regsBeforeStart_of_not_mem
    simp [managerPhase, h1, startEv] at hs ⊢
    exact hs
  · have hb := builderPhase_before e (tr ++ [Ev.effect "mcmanager.New"])
      (by simp [startEv] at hs ⊢; exact hs)
    simpa [managerPhase, h1] using hb

/-- The bridge phase preserves the ordering property. -/
theorem bridgePhase_before (e : MainEnv) (tr : List Ev) (hs : startEv ∉ tr) :
    regsBeforeStart (bridgePhase e tr) := by
  by_cases h1 : e.statKubeconfigErr = true
  · apply regsBeforeStart_of_not_mem
    simp [bridgePhase, h1, startEv] at hs ⊢
    exact hs
  · by_cases h2 : e.buildKubeconfigErr = true
    · apply regsBeforeStart_of_not_mem
      simp [bridgePhase, h1, h2, startEv] at hs ⊢
      exact hs
    · by_cases h3 : e.clientNewErr = true
      · apply regsBeforeStart_of_not_mem
        simp [bridgePhase, h1, h2, h3, startEv] at hs ⊢
        exact hs
      · have hm := managerPhase_before e (tr ++ [Ev.effect "bridge client constructed"])
          (by simp [startEv] at hs ⊢; exact hs)
        simpa [bridgePhase, h1, h2, h3] using hm

/-- The provider phase preserves the ordering property. -/
theorem providerPhase_before (e : MainEnv) (tr : List Ev) (hs : startEv ∉ tr) :
    regsBeforeStart (providerPhase e tr) := by
  by_cases h1 : e.providerNewErr = true
  · apply regsBeforeStart_of_not_mem
    simp [providerPhase, h1, startEv] at hs ⊢
    exact hs
  · simpa [providerPhase, h1] using bridgePhase_before e tr hs

/-- The config phase preserves the ordering property. -/
theorem configPhase_before (e : MainEnv) (tr : List Ev) (hs : startEv ∉ tr) :
    regsBeforeStart (configPhase e tr) := by
  by_cases h1 : e.getConfigErr = true
  · apply regsBeforeStart_of_not_mem
    simp [configPhase, h1, startEv] at hs ⊢
    exact hs
  · simpa [configPhase, h1] using providerPhase_before e tr hs

/-- The metrics certificate phase preserves the ordering property. -/
theorem metricsCertPhase_before (f : MainFlags) (e : MainEnv) (tr : List Ev)
    (hs : startEv ∉ tr) : regsBeforeStart (metricsCertPhase f e tr) := by
  by_cases h1 : f.metricsCertPath = ""
  · simpa [metricsCertPhase, h1] using configPhase_before e tr hs
  · by_cases h2 : e.metricsCertWatcherErr = true
    · apply regsBeforeStart_of_not_mem
      simp [metricsCertPhase, h1, h2, startEv] at hs ⊢
      exact hs
    · have hc := configPhase_before e (tr ++
        [Ev.infoLog "Initializing metrics certificate watcher using provided certificates"])
        (by simp [startEv] at hs ⊢; exact hs)
      simpa [metricsCertPhase, h1, h2] using hc

/-- The webhook certificate phase preserves the ordering property. -/
theorem webhookCertPhase_before (f : MainFlags) (e : MainEnv) (tr : List Ev)
    (hs : startEv ∉ tr) : regsBeforeStart (webhookCertPhase f e tr) := by
  by_cases h1 : f.webhookCertPath = ""
  · simpa [webhookCertPhase, h1] using metricsCertPhase_before f e tr hs
  · by_cases h2 : e.webhookCertWatcherErr = true
    · apply regsBeforeStart_of_not_mem
      simp [webhookCertPhase, h1, h2, startEv] at hs ⊢
      exact hs
    · have hm := metricsCertPhase_before f e (tr ++
        [Ev.infoLog "Initializing webhook certificate watcher using provided certificates"])
        (by simp [startEv] at hs ⊢; exact hs)
      simpa [webhookCertPhase, h1, h2] using hm

/-- C6: if either health-check registration fails, the process exits
non-zero; and on every run, both the healthz registration and the readyz
registration sit strictly before the first mgr.Start event of the trace. -/
theorem c6_health_checks_registered_before_start (f : MainFlags) (e : MainEnv) :
    ((e.healthzErr = true ∨ e.readyzErr = true) →
      (mainRun f e).2 = Outcome.exited 1) ∧
    regsBeforeStart (mainRun f e) := by
  constructor
  · intro h
    unfold mainRun
    rcases h with h | h
    · exact webhookCertPhase_exit_delegate f e
        (fun t1 => metricsCertPhase_exit_delegate f e
          (fun t2 => configPhase_exit_delegate e
            (fun t3 => providerPhase_exit_delegate e
              (fun t4 => bridgePhase_exit_delegate e
                (fun t5 => managerPhase_exit_delegate e
                  (fun t6 => builderPhase_exit_delegate e
                    (fun t7 => healthPhase_exit_of_healthzErr e h t7) t6) t5) t4) t3) t2) t1) []
    · exact webhookCertPhase_exit_delegate f e
        (fun t1 => metricsCertPhase_exit_delegate f e
          (fun t2 => configPhase_exit_delegate e
            (fun t3 => providerPhase_exit_delegate e
              (fun t4 => bridgePhase_exit_delegate e
                (fun t5 => managerPhase_exit_delegate e
                  (fun t6 => builderPhase_exit_delegate e
                    (fun t7 => healthPhase_exit_of_readyzErr e h t7) t6) t5) t4) t3) t2) t1) []
  · unfold mainRun
    exact webhookCertPhase_before f e [] (by simp)

/-- Witness for C6: a failing readyz registration exits non-zero, and the
ordering property holds of the all-successful run. -/
theorem c6_health_checks_registered_before_start_witness :
    (mainRun sampleFlags { okEnv with readyzErr := true }).2 =
      Outcome.exited 1 ∧
    regsBeforeStart (mainRun sampleFlags okEnv) :=
  ⟨(c6_health_checks_registered_before_start sampleFlags
      { okEnv with readyzErr := true }).1 (Or.inr rfl),
   (c6_health_checks_registered_before_start sampleFlags okEnv).2⟩

/-! ## Work queue invariants (for C5) -/

/-- One dispatcher step keeps at most one in-flight reconcile and at most
one pending re-run per key. -/
theorem qStep_bounds (s : QState) (ev : QEvent)
    (h : ∀ j, s.running j ≤ 1 ∧ s.pending j ≤ 1) (j : WorkKey) :
    (qStep s ev).running j ≤ 1 ∧ (qStep s ev).pending j ≤ 1 := by
  rcases ev with k | k | k
  · simp only [qStep]
    split
    · constructor
      · exact (h j).1
      · by_cases hj : j = k
        · simp [hj]
        · simp [hj]
          exact (h j).2
    · exact h j
  · simp only [qStep]
    split
    · next hg =>
        constructor
        · by_cases hj : j = k
          · simp [hj, hg.2]
          · simp [hj]
            exact (h j).1
        · by_cases hj : j = k
          · have hk := (h k).2
            simp [hj]
            omega
          · simp [hj]
            exact (h j).2
    · exact h j
  · simp only [qStep]
    split
    · constructor
      · by_cases hj : j = k
        · have hk := (h k).1
          simp [hj]
          omega
        · simp [hj]
          exact (h j).1
      · exact (h j).2
    · exact h j

/-- The bounds hold after any sequence of steps from a bounded state. -/
theorem qRun_bounds_aux (evs : List QEvent) (s : QState)
    (h : ∀ j, s.running j ≤ 1 ∧ s.pending j ≤ 1) (j : WorkKey) :
    (evs.foldl qStep s).running j ≤ 1 ∧ (evs.foldl qStep s).pending j ≤ 1 := by
  induction evs generalizing s with
  | nil => exact h j
  | cons ev rest ih =>
      exact ih (qStep s ev) (fun i => qStep_bounds s ev h i)

/-- C5: in every reachable dispatcher state, each cluster-id and object
key pair has at most one in-flight reconcile (no two reconciles for the
same key ever run concurrently) and at most one pending re-run (concurrent
triggers coalesce). -/
theorem c5_per_key_serialization_and_coalescing
    (evs : List QEvent) (k : WorkKey) :
    (qRun evs).running k ≤ 1 ∧ (qRun evs).pending k ≤ 1 :=
  qRun_bounds_aux evs qInit (fun j => by simp [qInit]) k
